import Mathlib

/-!
Verification development for the MeanGPT orchestrator core.

The TypeScript sources are shallowly embedded:

* machine numbers that feed arithmetic (the numeric-mean fallback) are
  modelled as exact rationals (the concrete inputs exercised below are
  exact in binary floating point as well);
* `Date` timestamps are omitted from the embedded records: no verified
  property reads them;
* every network call is abstracted by the settled outcome the caller
  observes (fulfilled value or rejection reason), passed in as an
  explicit argument: promises that are awaited behind a try/catch are
  embedded as `Except` values;
* the JavaScript `Map` is an association list with insert-or-replace
  update, preserving insertion order exactly as `Map.set` does;
* the file-storage collaborator is out of scope (the spec lists
  persistence as an external collaborator and the serverless flag skips
  it); the embedded context manager is the in-memory path.
-/

set_option maxRecDepth 10000
set_option linter.unusedVariables false

/-! ## Basic data model (src/unnamed/part_000, the types module) -/

inductive Role where
  | system
  | user
  | assistant
deriving DecidableEq, Repr

/-- A chat message; the optional timestamp is omitted (never read by the
verified code paths). -/
structure Message where
  role : Role
  content : String
deriving DecidableEq, Repr

/-- Static descriptor of a configured provider. -/
structure AIProvider where
  name : String
  displayName : String
  model : String
deriving DecidableEq, Repr

/-- One provider answer; `error` is `none` for an absent field and
`some s` for a present string field (JavaScript truthiness of the field
is `s` being nonempty). -/
structure AIResponse where
  provider : AIProvider
  content : String
  error : Option String := none
  tokensUsed : Option Nat := none
deriving DecidableEq, Repr

structure AggregatedResponse where
  responses : List AIResponse
  summary : List (String × String)
  meanAnswer : Option String := none
  bestAnswer : Option String := none
deriving DecidableEq, Repr

/-! ## JavaScript-semantics helpers -/

/-- Truthiness of an optional string field: present and nonempty. -/
def jsTruthy : Option String → Bool
  | none => false
  | some s => s ≠ ""

/-- `String.prototype.includes`: contiguous substring test. -/
def jsIncludes (s sub : String) : Bool :=
  decide (sub.toList <:+: s.toList)

/-- `String.prototype.substring(0, n)` for ASCII content. -/
def jsSubstring0 (s : String) (n : Nat) : String :=
  String.mk (s.toList.take n)

/-- `String.prototype.toLowerCase`, for the ASCII content the keyword
scan needs. -/
def jsToLower (s : String) : String :=
  String.mk (s.toList.map Char.toLower)

def jsWhitespace (c : Char) : Bool :=
  c = ' ' || (9 ≤ c.toNat && c.toNat ≤ 13)

/-- `String.prototype.trim` (ASCII whitespace). -/
def jsTrim (s : String) : String :=
  String.mk (((s.toList.dropWhile jsWhitespace).reverse.dropWhile jsWhitespace).reverse)

def splitLinesAux : List Char → List (List Char)
  | [] => [[]]
  | c :: rest =>
    match splitLinesAux rest with
    | [] => [[]]
    | l :: ls => if c = '\n' then [] :: l :: ls else (c :: l) :: ls

/-- `String.prototype.split` at newline characters. -/
def jsSplitNewlines (s : String) : List String :=
  (splitLinesAux s.toList).map String.mk

/-- `Array.prototype.join` with a separator string. -/
def joinSep (sep : String) : List String → String
  | [] => ""
  | [x] => x
  | x :: xs => x ++ sep ++ joinSep sep xs

/-- An exact (unnormalized) fraction: the embedding of the JavaScript
numbers flowing through the numeric-mean fallback. Every construction
below keeps the denominator positive. The concrete values the claims
exercise are exact in binary floating point as well. -/
structure Frac where
  num : ℤ
  den : ℕ
deriving DecidableEq, Repr

def Frac.add (a b : Frac) : Frac :=
  { num := a.num * b.den + b.num * a.den, den := a.den * b.den }

/-- The `reduce((a, b) => a + b, 0)` sum. -/
def Frac.sum (l : List Frac) : Frac :=
  l.foldl Frac.add { num := 0, den := 1 }

/-- Division by the element count. -/
def Frac.divNat (a : Frac) (k : ℕ) : Frac :=
  { num := a.num, den := a.den * k }

/-- The `n > 0` comparison (denominators are positive). -/
def Frac.isPos (a : Frac) : Bool :=
  0 < a.num

/-! ## Provider gateway layer (src/lib/providers/base.ts and the four
vendor implementations) -/

/-- A thrown JavaScript error as observed by the catch blocks: only its
optional `message` field is ever read. -/
structure JsError where
  message : Option String := none
deriving DecidableEq, Repr

/-- `BaseAIProvider.handleError`: collapse a thrown error into a
response with empty content and a populated error field
(`error.message \x7c\x7c "Unknown error occurred"`). -/
def BaseAIProvider.handleError (p : AIProvider) (e : JsError) : AIResponse :=
  { provider := p
    content := ""
    error := some (match e.message with
      | some m => if m = "" then "Unknown error occurred" else m
      | none => "Unknown error occurred") }

def openaiDescriptor (model : String) : AIProvider :=
  { name := "openai", displayName := "OpenAI ChatGPT", model := model }

def anthropicDescriptor (model : String) : AIProvider :=
  { name := "anthropic", displayName := "Anthropic Claude", model := model }

def geminiDescriptor (model : String) : AIProvider :=
  { name := "gemini", displayName := "Google Gemini", model := model }

def grokDescriptor (model : String) : AIProvider :=
  { name := "grok", displayName := "xAI Grok", model := model }

/-- Settled result of the OpenAI SDK call: the fields the code reads. -/
structure OpenAICompletion where
  firstContent : Option String
  totalTokens : Option Nat
deriving DecidableEq, Repr

/-- `OpenAIProvider.sendMessage`: the try block body either yields a
completion or throws; the catch returns `handleError`. The `stream`
branch returns a stub response. -/
def OpenAIProvider.sendMessage (model : String) (stream : Bool)
    (call : Except JsError OpenAICompletion) : AIResponse :=
  match call with
  | .error e => BaseAIProvider.handleError (openaiDescriptor model) e
  | .ok c =>
    if stream then
      { provider := openaiDescriptor model
        content := "Streaming not yet implemented" }
    else
      { provider := openaiDescriptor model
        content := c.firstContent.getD ""
        tokensUsed := c.totalTokens }

/-- Settled result of the Anthropic SDK call: first content block text
when it is a text block, and token usage when present. -/
structure AnthropicReply where
  firstBlockText : Option String
  usage : Option (Nat × Nat)
deriving DecidableEq, Repr

/-- `AnthropicProvider.sendMessage`: system turn split off, call made,
failures collapsed by the catch into `handleError`. -/
def AnthropicProvider.sendMessage (model : String)
    (call : Except JsError AnthropicReply) : AIResponse :=
  match call with
  | .error e => BaseAIProvider.handleError (anthropicDescriptor model) e
  | .ok r =>
    { provider := anthropicDescriptor model
      content := r.firstBlockText.getD ""
      tokensUsed := r.usage.map (fun u => u.1 + u.2) }

/-- Is a Gemini failure retried? The loop retries only when the message
mentions a 503 or an overload, and only before the last attempt. -/
def geminiRetryable (e : JsError) : Bool :=
  match e.message with
  | none => false
  | some m => jsIncludes m "503" || jsIncludes m "overloaded"

/-- The Gemini retry loop (maxRetries = 2): the result of the attempts
actually made, as an `Except` fed to the final `handleError`. -/
def geminiRun (att1 att2 : Except JsError String) : Except JsError String :=
  match att1 with
  | .ok t => .ok t
  | .error e1 => if geminiRetryable e1 then att2 else .error e1

/-- `GeminiProvider.sendMessage`: retry loop, then success response or
`handleError` on the last error. -/
def GeminiProvider.sendMessage (model : String)
    (att1 att2 : Except JsError String) : AIResponse :=
  match geminiRun att1 att2 with
  | .ok text => { provider := geminiDescriptor model, content := text }
  | .error e => BaseAIProvider.handleError (geminiDescriptor model) e

/-- Settled `fetch` result for the Grok call: the fields the code reads. -/
structure GrokFetch where
  ok : Bool
  status : Nat
  statusText : String
  firstContent : Option String
  totalTokens : Option Nat
deriving DecidableEq, Repr

/-- The Grok try block: a rejected fetch propagates, a non-ok status is
turned into a thrown error with the formatted status line. -/
def grokBody (call : Except JsError GrokFetch) : Except JsError GrokFetch :=
  match call with
  | .error e => .error e
  | .ok r =>
    if r.ok then .ok r
    else .error { message := some ("Grok API error: " ++ toString r.status ++ " " ++ r.statusText) }

/-- `GrokProvider.sendMessage`: try block body plus the catch. -/
def GrokProvider.sendMessage (model : String)
    (call : Except JsError GrokFetch) : AIResponse :=
  match grokBody call with
  | .error e => BaseAIProvider.handleError (grokDescriptor model) e
  | .ok r =>
    { provider := grokDescriptor model
      content := r.firstContent.getD ""
      tokensUsed := r.totalTokens }

/-! ## Response aggregator (src/unnamed/part_004, class ResponseAggregator)

The two synthesis calls go to a `gpt-4o-mini` OpenAI provider; their
prompts embed presentation assets and `Date.now()` cache busters, so the
calls are abstracted by their settled outcomes (`SynthCalls`); `none`
models a missing `OPENAI_API_KEY` (field `meanGPT` being null). -/

/-- The `x \x7c\x7c default` idiom on an optional string field. -/
def jsOrDefault (o : Option String) (d : String) : String :=
  match o with
  | some m => if m = "" then d else m
  | none => d

/-- Settled outcomes of the two synthesis requests: the `content` of the
resolved response on success, or the thrown error. -/
structure SynthCalls where
  meanCall : Except JsError String
  bestCall : Except JsError String

def digitOrComma (c : Char) : Bool :=
  c.isDigit || c = ','

/-- Membership in the language of the anchored numeric pattern
(optional dollar sign, one or more digits or commas, optional dot,
optional digits). -/
def numericPatternTest (s : String) : Bool :=
  let cs := match s.toList with
    | '$' :: rest => rest
    | cs => cs
  let a := cs.takeWhile digitOrComma
  let r := cs.dropWhile digitOrComma
  decide (a ≠ []) && (match r with
    | [] => true
    | '.' :: r2 => r2.all Char.isDigit
    | _ => false)

/-- `ResponseAggregator.areNumericResponses`: every content is a bare
numeric string, outright or on one of its lines. -/
def areNumericResponses (contents : List String) : Bool :=
  contents.all (fun content =>
    let trimmed := jsTrim content
    numericPatternTest trimmed ||
      (jsSplitNewlines trimmed).any (fun line => numericPatternTest (jsTrim line)))

/-- Capture group of the first (leftmost, greedy) match of the
unanchored numeric pattern: the maximal digit-or-comma run starting at
the first such character, extended by a dot and a digit run when a dot
follows directly. -/
def firstNumericToken (s : String) : Option (List Char) :=
  let cs := s.toList.dropWhile (fun c => !digitOrComma c)
  match cs with
  | [] => none
  | _ =>
    let a := cs.takeWhile digitOrComma
    let r := cs.dropWhile digitOrComma
    let tail := match r with
      | '.' :: r2 => '.' :: r2.takeWhile Char.isDigit
      | _ => []
    some (a ++ tail)

def digitsToNat (cs : List Char) : Nat :=
  cs.foldl (fun n c => 10 * n + (c.toNat - Char.toNat '0')) 0

/-- `parseFloat` on a comma-stripped capture group (digits, optionally a
dot and digits), as an exact fraction; `none` is NaN. -/
def parseFloatQ (cs : List Char) : Option Frac :=
  let d := cs.takeWhile Char.isDigit
  let r := cs.dropWhile Char.isDigit
  match r with
  | [] => if d = [] then none else some { num := (digitsToNat d : ℤ), den := 1 }
  | '.' :: f =>
    let fd := f.takeWhile Char.isDigit
    if d = [] ∧ fd = [] then none
    else some { num := (digitsToNat d : ℤ) * (10 : ℤ) ^ fd.length + (digitsToNat fd : ℤ)
                den := 10 ^ fd.length }
  | _ => none

/-- The per-content extraction inside `calculateNumericMean`: first
numeric token, commas removed, `parseFloat`. -/
def extractFirstNumber (content : String) : Option Frac :=
  (firstNumericToken content).bind (fun g => parseFloatQ (g.filter (fun c => c ≠ ',')))

/-- `Number.prototype.toFixed(2)` for the nonnegative exact values
produced here: `n` is the floor of `q * 100 + 1 / 2` (round half
towards positive infinity to two decimals). -/
def toFixed2 (q : Frac) : String :=
  let n : ℤ := Int.fdiv (200 * q.num + (q.den : ℤ)) (2 * (q.den : ℤ))
  let ip := n / 100
  let fp := n % 100
  toString ip ++ "." ++ (if fp < 10 then "0" ++ toString fp else toString fp)

/-- The `numbers` list of `calculateNumericMean`: one extraction per
content (a failed match parses as 0), keeping the strictly positive
values. -/
def positiveNumbers (contents : List String) : List Frac :=
  (contents.map (fun c => (extractFirstNumber c).getD { num := 0, den := 1 })).filter Frac.isPos

/-- `ResponseAggregator.calculateNumericMean`: render the mean of the
extracted positive numbers as a currency string. -/
def calculateNumericMean (contents : List String) : String :=
  let numbers := positiveNumbers contents
  if numbers.length = 0 then "Unable to calculate mean"
  else "Mean value: $" ++ toFixed2 (Frac.divNat (Frac.sum numbers) numbers.length)

/-- The `contents` list of `simpleAverage`: the truthy contents. -/
def validContents (responses : List AIResponse) : List String :=
  (responses.map (fun r => r.content)).filter (fun c => c ≠ "")

/-- `ResponseAggregator.simpleAverage`: numeric mean when every content
looks numeric, otherwise the labeled concatenation under a count
header. -/
def simpleAverage (responses : List AIResponse) : String :=
  let contents := validContents responses
  if areNumericResponses contents then
    calculateNumericMean contents
  else
    "Combined response from " ++ toString responses.length ++ " AIs:\n\n" ++
      joinSep "\n\n" (responses.map (fun r => r.provider.displayName ++ ": " ++ r.content))

/-- `ResponseAggregator.calculateMeanAnswer`: synthesis call when the
synthesis provider exists, with `simpleAverage` as the fallback on a
missing provider, a thrown call, or empty returned content. The prompt
(built from `allResponses` and `originalQuestion`) is absorbed by the
oracle. -/
def calculateMeanAnswer (synth : Option SynthCalls) (responses : List AIResponse)
    (originalQuestion : String) (allResponses : List AIResponse) : String :=
  match synth with
  | none => simpleAverage responses
  | some s =>
    match s.meanCall with
    | .error _ => simpleAverage responses
    | .ok content => if content = "" then simpleAverage responses else content

/-- First content of a response list (the `responses[0].content` reads;
call sites guarantee nonemptiness). -/
def firstContent : List AIResponse → String
  | [] => ""
  | r :: _ => r.content

/-- `ResponseAggregator.selectBestAnswer`: second synthesis call, first
valid response as the fallback. -/
def selectBestAnswer (synth : Option SynthCalls) (responses : List AIResponse)
    (originalQuestion : String) : String :=
  match synth with
  | none => firstContent responses
  | some s =>
    match s.bestCall with
    | .error _ => firstContent responses
    | .ok content => if content = "" then firstContent responses else content

/-- The validity filter of `analyzeResponses`: truthy content and falsy
error. -/
def isValidResponse (r : AIResponse) : Bool :=
  (r.content != "") && !(jsTruthy r.error)

/-- `ResponseAggregator.analyzeResponses`. -/
def analyzeResponses (synth : Option SynthCalls) (agg : AggregatedResponse)
    (originalQuestion : String) : AggregatedResponse :=
  let validResponses := agg.responses.filter isValidResponse
  if validResponses.length = 0 then
    { agg with
        meanAnswer := some "All AI providers failed to respond."
        bestAnswer := some "No responses available." }
  else if validResponses.length = 1 then
    { agg with
        meanAnswer := some (calculateMeanAnswer synth validResponses originalQuestion agg.responses)
        bestAnswer := some (firstContent validResponses) }
  else
    { agg with
        meanAnswer := some (calculateMeanAnswer synth validResponses originalQuestion agg.responses)
        bestAnswer := some (selectBestAnswer synth validResponses originalQuestion) }

/-- `ResponseAggregator.createFormattedResponse`. -/
def createFormattedResponse (agg : AggregatedResponse) : String :=
  let base := "## AI Responses Summary\n\n" ++ String.join (agg.responses.map (fun r =>
    "### " ++ r.provider.displayName ++ "\n" ++
      (if jsTruthy r.error then "*Error: " ++ r.error.getD "" ++ "*\n\n"
       else r.content ++ "\n\n")))
  let withMean :=
    if jsTruthy agg.meanAnswer then
      base ++ "---\n\n## Mean Answer\n" ++ agg.meanAnswer.getD "" ++ "\n\n"
    else base
  if jsTruthy agg.bestAnswer && agg.bestAnswer != agg.meanAnswer then
    withMean ++ "## Best Answer\n" ++ agg.bestAnswer.getD "" ++ "\n\n"
  else withMean

/-! ## Orchestrator (src/unnamed/part_003, class AIOrchestrator) -/

/-- Which of the four API keys are present at construction time. -/
structure Env where
  openai : Bool
  anthropic : Bool
  gemini : Bool
  grok : Bool
deriving DecidableEq, Repr

/-- JavaScript `Map.set`: replace in place, else append. -/
def mapSet {α : Type} : List (String × α) → String → α → List (String × α)
  | [], k, v => [(k, v)]
  | (k2, v2) :: rest, k, v =>
    if k2 = k then (k, v) :: rest else (k2, v2) :: mapSet rest k v

/-- JavaScript `Map.get`. -/
def mapGet {α : Type} : List (String × α) → String → Option α
  | [], _ => none
  | (k2, v2) :: rest, k => if k2 = k then some v2 else mapGet rest k

/-- `AIOrchestrator.initializeProviders`: one map entry per present key,
in source order (model-name environment overrides fixed to the listed
defaults). -/
def initializeProviders (env : Env) : List (String × AIProvider) :=
  (if env.openai then [("openai", openaiDescriptor "gpt-4o-mini")] else []) ++
    (if env.anthropic then [("anthropic", anthropicDescriptor "claude-3-5-sonnet-20241022")] else []) ++
    (if env.gemini then [("gemini", geminiDescriptor "gemini-1.5-flash")] else []) ++
    (if env.grok then [("grok", grokDescriptor "grok-2-1212")] else [])

/-- A settled promise as `Promise.allSettled` reports it. -/
inductive PromiseOutcome where
  | fulfilled (value : AIResponse)
  | rejected (reasonMessage : Option String)
deriving DecidableEq, Repr

/-- `AIOrchestrator.createSummaries`. -/
def createSummaries (responses : List AIResponse) : List (String × String) :=
  responses.foldl (fun summary r =>
    if r.content != "" then
      let preview := if r.content.length > 200 then jsSubstring0 r.content 197 ++ "..." else r.content
      mapSet summary r.provider.name preview
    else if jsTruthy r.error then
      mapSet summary r.provider.name ("Error: " ++ r.error.getD "")
    else summary) []

/-- The `Promise.allSettled` barrier over the active providers: each
provider paired with the settled outcome of its call. -/
def settleAll (outcome : String → PromiseOutcome)
    (activeProviders : List (String × AIProvider)) :
    List ((String × AIProvider) × PromiseOutcome) :=
  activeProviders.map (fun p => (p, outcome p.1))

/-- The `successfulResponses` array of `queryAllProviders`: values of
the fulfilled calls, in barrier order. -/
def fulfilledOf (settled : List ((String × AIProvider) × PromiseOutcome)) :
    List AIResponse :=
  settled.filterMap (fun x =>
    match x.2 with
    | .fulfilled v => some v
    | .rejected _ => none)

/-- The `failedResponses` array of `queryAllProviders`: an error entry
per rejected call, tagged with that provider descriptor. -/
def rejectedOf (settled : List ((String × AIProvider) × PromiseOutcome)) :
    List AIResponse :=
  settled.filterMap (fun x =>
    match x.2 with
    | .rejected reason =>
      some { provider := x.1.2, content := "", error := some (jsOrDefault reason "Unknown error") }
    | .fulfilled _ => none)

/-- The active subset of the configured provider map: filtered by the
requested subset when one is passed. -/
def activeProvidersOf (env : Env) (providersOpt : Option (List String)) :
    List (String × AIProvider) :=
  match providersOpt with
  | some ps => (initializeProviders env).filter (fun p => ps.contains p.1)
  | none => initializeProviders env

/-- `AIOrchestrator.queryAllProviders`: fan out over the active
providers, wait for every call to settle, and collect the fulfilled
results followed by error entries for the rejected ones. The per-call
outcome oracle absorbs messages and options. -/
def queryAllProviders (env : Env) (outcome : String → PromiseOutcome)
    (providersOpt : Option (List String)) : AggregatedResponse :=
  let settled := settleAll outcome (activeProvidersOf env providersOpt)
  let allResponses := fulfilledOf settled ++ rejectedOf settled
  { responses := allResponses, summary := createSummaries allResponses }

/-- `AIOrchestrator.querySingleProvider`: stub error response when the
provider is not in the map, otherwise that provider settles the call
(`send` is its resolved response for this turn). -/
def querySingleProvider (env : Env) (send : String → AIResponse)
    (providerName : String) : AIResponse :=
  match mapGet (initializeProviders env) providerName with
  | none =>
    { provider := { name := providerName, displayName := providerName, model := "unknown" }
      content := ""
      error := some ("Provider " ++ providerName ++ " not configured") }
  | some _ => send providerName

/-- `AIOrchestrator.getAvailableProviders`. -/
def getAvailableProviders (env : Env) : List String :=
  (initializeProviders env).map (fun p => p.1)

/-! ## Context manager (src/lib/core/context-manager.ts)

The `FileStorageManager` collaborator is an external durability
backstop (skipped outright in serverless environments); the embedding
covers the in-memory path, which is the one every verified claim reads. -/

/-- The four fixed keys of `ConversationContext.aiContexts`. -/
inductive Prov where
  | openai
  | anthropic
  | gemini
  | grok
deriving DecidableEq, Repr

def Prov.key : Prov → String
  | .openai => "openai"
  | .anthropic => "anthropic"
  | .gemini => "gemini"
  | .grok => "grok"

/-- The unchecked TypeScript cast of a provider id string to the
context-record key type: unknown ids have no context slot. -/
def provFromString (s : String) : Option Prov :=
  if s = "openai" then some .openai
  else if s = "anthropic" then some .anthropic
  else if s = "gemini" then some .gemini
  else if s = "grok" then some .grok
  else none

/-- The per-provider message histories of one conversation. -/
structure AIContexts where
  openai : List Message
  anthropic : List Message
  gemini : List Message
  grok : List Message
deriving DecidableEq, Repr

def AIContexts.get (a : AIContexts) : Prov → List Message
  | .openai => a.openai
  | .anthropic => a.anthropic
  | .gemini => a.gemini
  | .grok => a.grok

def AIContexts.set (a : AIContexts) : Prov → List Message → AIContexts
  | .openai, l => { a with openai := l }
  | .anthropic, l => { a with anthropic := l }
  | .gemini, l => { a with gemini := l }
  | .grok, l => { a with grok := l }

def emptyAIContexts : AIContexts :=
  { openai := [], anthropic := [], gemini := [], grok := [] }

/-- A conversation: master transcript plus per-provider contexts
(the `createdAt` and `updatedAt` timestamps are omitted). -/
structure ConversationContext where
  id : String
  messages : List Message
  aiContexts : AIContexts
deriving DecidableEq, Repr

/-- The in-memory `conversations` map of the `ContextManager`. -/
abbrev CMState := List (String × ConversationContext)

def maxMessagesPerContext : Nat := 20

/-- `ContextManager.createConversation`: fresh empty conversation
stored under `id \x7c\x7c this.generateId()` — the generated id
(supplied here as `genId`) replaces an absent or falsy empty-string
id; `Map.set` silently replaces an existing binding. -/
def ContextManager.createConversation (state : CMState) (idOpt : Option String)
    (genId : String) : ConversationContext × CMState :=
  let conversationId := jsOrDefault idOpt genId
  let context : ConversationContext :=
    { id := conversationId, messages := [], aiContexts := emptyAIContexts }
  (context, mapSet state conversationId context)

def ContextManager.getConversation (state : CMState) (id : String) :
    Option ConversationContext :=
  mapGet state id

/-- `ContextManager.createSummary`: first 50 characters of each removed
user-role message, comma-joined. -/
def ContextManager.createSummary (messages : List Message) : String :=
  let topics := joinSep ", "
    ((messages.filter (fun m => m.role == Role.user)).map (fun m => jsSubstring0 m.content 50))
  "Topics discussed: " ++ topics

/-- `ContextManager.trimContextIfNeeded` (master transcript): drop the
oldest excess messages and prepend one synthetic summary. -/
def ContextManager.trimContextIfNeeded (messages : List Message) : List Message :=
  if messages.length > maxMessagesPerContext then
    let toRemove := messages.length - maxMessagesPerContext
    let removed := messages.take toRemove
    { role := Role.system
      content := "Previous conversation summary: " ++ ContextManager.createSummary removed }
      :: messages.drop toRemove
  else messages

/-- `ContextManager.trimAIContextIfNeeded` (per-provider context): same
policy with the context summary prefix. -/
def ContextManager.trimAIContextIfNeeded (messages : List Message) : List Message :=
  if messages.length > maxMessagesPerContext then
    let toRemove := messages.length - maxMessagesPerContext
    let removed := messages.take toRemove
    { role := Role.system
      content := "Previous context summary: " ++ ContextManager.createSummary removed }
      :: messages.drop toRemove
  else messages

/-- `ContextManager.addMessage`: append to the master transcript and
trim; `none` is the thrown conversation-not-found error (which mutates
nothing). -/
def ContextManager.addMessage (state : CMState) (conversationId : String)
    (message : Message) : Option CMState :=
  match mapGet state conversationId with
  | none => none
  | some conversation =>
    let msgs := ContextManager.trimContextIfNeeded (conversation.messages ++ [message])
    some (mapSet state conversationId { conversation with messages := msgs })

/-- `ContextManager.addAIMessage`: same append-and-trim policy on one
provider context (the file-storage save is external). -/
def ContextManager.addAIMessage (state : CMState) (conversationId : String)
    (provider : Prov) (message : Message) : Option CMState :=
  match mapGet state conversationId with
  | none => none
  | some conversation =>
    let ctx := ContextManager.trimAIContextIfNeeded
      (conversation.aiContexts.get provider ++ [message])
    some (mapSet state conversationId
      { conversation with aiContexts := conversation.aiContexts.set provider ctx })

/-- `ContextManager.getMessagesForProvider` on the in-memory path. -/
def ContextManager.getMessagesForProvider (state : CMState) (conversationId : String)
    (provider : Prov) (includeSystemPrompt : Bool) : List Message :=
  let base : List Message :=
    if includeSystemPrompt then
      [{ role := Role.system
         content := "You are a helpful AI assistant. Provide clear, accurate, and concise responses." }]
    else []
  match mapGet state conversationId with
  | some conversation => base ++ conversation.aiContexts.get provider
  | none => base

/-- The identity system prompt of `getMasterContext` for an unknown id
(ten-space template indentation). -/
def masterPromptAbsent : String :=
  "You are MeanGPT, an AI orchestrator that manages responses from multiple AI providers (OpenAI, Anthropic, Gemini, and Grok). \n          Your role is to:\n          1. Analyze user questions to determine if they need to be forwarded to other AIs\n          2. Summarize responses from multiple AIs\n          3. Provide mean/average answers when appropriate\n          4. Select the best answer based on accuracy and completeness\n          5. Handle follow-up questions intelligently"

/-- The identity system prompt of `getMasterContext` for a stored
conversation (eight-space template indentation). -/
def masterPromptPresent : String :=
  "You are MeanGPT, an AI orchestrator that manages responses from multiple AI providers (OpenAI, Anthropic, Gemini, and Grok). \n        Your role is to:\n        1. Analyze user questions to determine if they need to be forwarded to other AIs\n        2. Summarize responses from multiple AIs\n        3. Provide mean/average answers when appropriate\n        4. Select the best answer based on accuracy and completeness\n        5. Handle follow-up questions intelligently"

/-- `ContextManager.getMasterContext` on the in-memory path. -/
def ContextManager.getMasterContext (state : CMState) (conversationId : String) :
    List Message :=
  match mapGet state conversationId with
  | none => [{ role := Role.system, content := masterPromptAbsent }]
  | some conversation =>
    { role := Role.system, content := masterPromptPresent } :: conversation.messages

/-- The strict JSON object the routing classifier is asked to return.
A fetch failure, a non-ok status, an absent reply, and a `JSON.parse`
throw all collapse into the `.error` case of the classification
argument below. -/
structure ParsedRouting where
  decision : String
  providers : Option (List String)
  reason : String
deriving DecidableEq, Repr

/-- The routing decision record returned by `shouldForwardToAIs`. -/
structure RoutingResult where
  shouldForward : Bool
  providers : Option (List String) := none
  reason : String
deriving DecidableEq, Repr

/-- The static fallback of `shouldForwardToAIs`: self-reference keyword
scan on the lowercased message. -/
def fallbackRouting (userMessage : String) : RoutingResult :=
  let lowerMessage := jsToLower userMessage
  if jsIncludes lowerMessage "meangpt" || jsIncludes lowerMessage "mean gpt" ||
      jsIncludes lowerMessage "what is your name" || jsIncludes lowerMessage "who are you" then
    { shouldForward := false, reason := "Fallback: Direct MeanGPT interaction detected" }
  else
    { shouldForward := true, reason := "Fallback: General question routing" }

def firstMessageRouting : RoutingResult :=
  { shouldForward := true
    reason := "First message in conversation - getting comprehensive responses" }

/-- `ContextManager.shouldForwardToAIs`: first-message shortcut for a
missing or empty conversation, otherwise one classification request
(its prompt, built from the last six transcript entries, is absorbed by
the `classify` outcome), with the static fallback on any failure. -/
def ContextManager.shouldForwardToAIs (state : CMState) (conversationId : String)
    (userMessage : String) (classify : Except Unit ParsedRouting) : RoutingResult :=
  match mapGet state conversationId with
  | none => firstMessageRouting
  | some conversation =>
    if conversation.messages.length = 0 then firstMessageRouting
    else
      match classify with
      | .ok routingDecision =>
        { shouldForward := routingDecision.decision != "DIRECT_REPLY"
          providers := routingDecision.providers
          reason := routingDecision.reason }
      | .error _ => fallbackRouting userMessage

/-- An operation on the context-manager state, for stating invariants
over arbitrary call sequences. -/
inductive CMOp where
  | create (id : String)
  | addMsg (id : String) (message : Message)
  | addAI (id : String) (provider : Prov) (message : Message)

def applyOp (state : CMState) : CMOp → CMState
  | .create id => (ContextManager.createConversation state (some id) "").2
  | .addMsg id m => (ContextManager.addMessage state id m).getD state
  | .addAI id p m => (ContextManager.addAIMessage state id p m).getD state

def applyOps (ops : List CMOp) : CMState :=
  ops.foldl applyOp []

/-! ## Router (src/lib/core/router.ts, class MeanGPTRouter)

The provider calls are absorbed by a per-turn oracle
`send : String → AIResponse`, the resolved result of that provider for
this turn (the provider layer above always resolves). -/

structure ProcessResult where
  response : String
  conversationId : String
  routing : RoutingResult
  aggregatedData : Option AggregatedResponse := none
deriving DecidableEq, Repr

/-- `MeanGPTRouter.handleDirectResponse`: one `querySingle` call on the
designated `openai` provider over the master context; an error-carrying
result is rendered as an identity-prefixed notice. -/
def MeanGPTRouter.handleDirectResponse (env : Env) (send : String → AIResponse)
    (state : CMState) (conversationId : String) (userMessage : String) : String :=
  let context := ContextManager.getMasterContext state conversationId
  let directResponse := querySingleProvider env send "openai"
  if jsTruthy directResponse.error then
    "MeanGPT: I encountered an error processing your request: " ++ directResponse.error.getD ""
  else directResponse.content

/-- `MeanGPTRouter.handleAIForwarding`: resolve the provider subset,
fan out through `queryAllProviders`, then append the outgoing user turn
to every targeted context and the assistant turn to the contexts of the
providers that succeeded. -/
def MeanGPTRouter.handleAIForwarding (env : Env) (send : String → AIResponse)
    (state : CMState) (conversationId : String) (userMessage : String)
    (specificProviders : Option (List String)) : AggregatedResponse × CMState :=
  let providers := ["openai", "anthropic", "gemini", "grok"]
  let activeProviders := specificProviders.getD providers
  let result := queryAllProviders env (fun n => .fulfilled (send n)) (some activeProviders)
  let newState := activeProviders.foldl (fun st provider =>
    match provFromString provider with
    | none => st
    | some p =>
      let st1 := (ContextManager.addAIMessage st conversationId p
        { role := Role.user, content := userMessage }).getD st
      match result.responses.find? (fun r => r.provider.name == provider) with
      | some providerResponse =>
        if !jsTruthy providerResponse.error then
          (ContextManager.addAIMessage st1 conversationId p
            { role := Role.assistant, content := providerResponse.content }).getD st1
        else st1
      | none => st1) state
  (result, newState)

/-- The create-if-absent step at the top of `processMessage`. -/
def MeanGPTRouter.ensureConversation (state : CMState) (conversationId : String) : CMState :=
  match ContextManager.getConversation state conversationId with
  | some _ => state
  | none => (ContextManager.createConversation state (some conversationId) "").2

/-- The master-transcript append of `processMessage` (a throw leaves
the state unchanged; here the conversation always exists). -/
def MeanGPTRouter.appendMaster (state : CMState) (conversationId : String)
    (message : Message) : CMState :=
  (ContextManager.addMessage state conversationId message).getD state

/-- `MeanGPTRouter.processMessage`: ensure the conversation, append the
user turn, route, then either answer directly or fan out, aggregate and
append the formatted assistant turn. -/
def MeanGPTRouter.processMessage (env : Env) (send : String → AIResponse)
    (classify : Except Unit ParsedRouting) (synth : Option SynthCalls)
    (state : CMState) (conversationId : String) (userMessage : String) :
    ProcessResult × CMState :=
  let state1 := MeanGPTRouter.ensureConversation state conversationId
  let userMsg : Message := { role := Role.user, content := userMessage }
  let state2 := MeanGPTRouter.appendMaster state1 conversationId userMsg
  let routing := ContextManager.shouldForwardToAIs state2 conversationId userMessage classify
  if !routing.shouldForward then
    let response := MeanGPTRouter.handleDirectResponse env send state2 conversationId userMessage
    ({ response := response, conversationId := conversationId, routing := routing
       aggregatedData := none }, state2)
  else
    let forwarded := MeanGPTRouter.handleAIForwarding env send state2 conversationId
      userMessage routing.providers
    let analyzedResponse := analyzeResponses synth forwarded.1 userMessage
    let formattedResponse := createFormattedResponse analyzedResponse
    let assistantMsg : Message := { role := Role.assistant, content := formattedResponse }
    let state4 := MeanGPTRouter.appendMaster forwarded.2 conversationId assistantMsg
    ({ response := formattedResponse, conversationId := conversationId, routing := routing
       aggregatedData := some analyzedResponse }, state4)

/-! ## Definitions stated from the specification text, for comparison
with the code -/

/-- Modelled from the spec: the numeric fallback as the specification
words it, the arithmetic mean of the first numeric token extracted from
each valid response, rendered as a 2-decimal currency string (no
filtering of zero tokens). Stated for comparison with
`calculateNumericMean`. -/
def claimNumericMean (contents : List String) : String :=
  let numbers := contents.filterMap extractFirstNumber
  "Mean value: $" ++ toFixed2 (Frac.divNat (Frac.sum numbers) numbers.length)

/-- The size bound claimed for every message list held by a
conversation: at most the 20-message cap plus one synthetic summary. -/
def convSizeOK (c : ConversationContext) : Prop :=
  c.messages.length ≤ 21 ∧ ∀ p : Prov, (c.aiContexts.get p).length ≤ 21

/-- The self-reference keyword test of the static routing fallback, on
the lowercased message. -/
def mentionsSelfReference (userMessage : String) : Bool :=
  let lowerMessage := jsToLower userMessage
  jsIncludes lowerMessage "meangpt" || jsIncludes lowerMessage "mean gpt" ||
    jsIncludes lowerMessage "what is your name" || jsIncludes lowerMessage "who are you"

/-! ## Helper lemmas -/

theorem jsOrDefault_empty_default (id : String) : jsOrDefault (some id) "" = id := by
  by_cases h : id = "" <;> simp [jsOrDefault, h]

theorem mapGet_mapSet_self {α : Type} (l : List (String × α)) (k : String) (v : α) :
    mapGet (mapSet l k v) k = some v := by
  induction l with
  | nil => simp [mapSet, mapGet]
  | cons h t ih =>
    obtain ⟨k2, v2⟩ := h
    by_cases hk : k2 = k
    · simp [mapSet, hk, mapGet]
    · simp [mapSet, hk, mapGet, ih]

theorem mapGet_mapSet_ne {α : Type} (l : List (String × α)) (k j : String) (v : α)
    (h : j ≠ k) : mapGet (mapSet l k v) j = mapGet l j := by
  induction l with
  | nil => simp [mapSet, mapGet, Ne.symm h]
  | cons hd t ih =>
    obtain ⟨k2, v2⟩ := hd
    by_cases hk : k2 = k
    · subst hk
      simp [mapSet, mapGet, Ne.symm h]
    · simp [mapSet, hk, mapGet, ih]

theorem mem_mapSet {α : Type} {x : String × α} (l : List (String × α)) (k : String)
    (v : α) (hx : x ∈ mapSet l k v) : x = (k, v) ∨ x ∈ l := by
  induction l with
  | nil => simpa [mapSet] using hx
  | cons hd t ih =>
    obtain ⟨k2, v2⟩ := hd
    by_cases hk : k2 = k
    · simp [mapSet, hk] at hx
      rcases hx with h1 | h1
      · exact Or.inl (by simp [h1])
      · exact Or.inr (List.mem_cons_of_mem _ h1)
    · simp [mapSet, hk] at hx
      rcases hx with h1 | h1
      · exact Or.inr (by simp [h1])
      · rcases ih h1 with h2 | h2
        · exact Or.inl h2
        · exact Or.inr (List.mem_cons_of_mem _ h2)

theorem mapGet_mem {α : Type} (l : List (String × α)) (k : String) (v : α)
    (h : mapGet l k = some v) : (k, v) ∈ l := by
  induction l with
  | nil => simp [mapGet] at h
  | cons hd t ih =>
    obtain ⟨k2, v2⟩ := hd
    by_cases hk : k2 = k
    · subst hk
      simp [mapGet] at h
      simp [h]
    · simp [mapGet, hk] at h
      exact List.mem_cons_of_mem _ (ih h)

theorem trimContext_length (l : List Message) :
    (ContextManager.trimContextIfNeeded l).length =
      if maxMessagesPerContext < l.length then maxMessagesPerContext + 1 else l.length := by
  by_cases h : maxMessagesPerContext < l.length
  · simp [ContextManager.trimContextIfNeeded, h]
    omega
  · simp [ContextManager.trimContextIfNeeded, h]

theorem trimAIContext_length (l : List Message) :
    (ContextManager.trimAIContextIfNeeded l).length =
      if maxMessagesPerContext < l.length then maxMessagesPerContext + 1 else l.length := by
  by_cases h : maxMessagesPerContext < l.length
  · simp [ContextManager.trimAIContextIfNeeded, h]
    omega
  · simp [ContextManager.trimAIContextIfNeeded, h]

theorem trimContext_length_le (l : List Message) :
    (ContextManager.trimContextIfNeeded l).length ≤ 21 := by
  rw [trimContext_length]
  simp [maxMessagesPerContext]
  split <;> omega

theorem trimAIContext_length_le (l : List Message) :
    (ContextManager.trimAIContextIfNeeded l).length ≤ 21 := by
  rw [trimAIContext_length]
  simp [maxMessagesPerContext]
  split <;> omega

theorem AIContexts.get_set_self (a : AIContexts) (p : Prov) (l : List Message) :
    (a.set p l).get p = l := by
  cases p <;> simp [AIContexts.get, AIContexts.set]

theorem AIContexts.get_set_other (a : AIContexts) (p q : Prov) (l : List Message)
    (h : q ≠ p) : (a.set p l).get q = a.get q := by
  cases p <;> cases q <;> simp_all [AIContexts.get, AIContexts.set]

theorem applyOp_sizeOK (st : CMState) (hst : ∀ e ∈ st, convSizeOK e.2) (op : CMOp) :
    ∀ e ∈ applyOp st op, convSizeOK e.2 := by
  intro e he
  cases op with
  | create id =>
    simp [applyOp, ContextManager.createConversation] at he
    rcases mem_mapSet _ _ _ he with h1 | h1
    · subst h1
      exact ⟨by simp, fun p => by cases p <;> simp [emptyAIContexts, AIContexts.get]⟩
    · exact hst e h1
  | addMsg id m =>
    cases hm : mapGet st id with
    | none => exact hst e (by simpa [applyOp, ContextManager.addMessage, hm] using he)
    | some conv =>
      simp [applyOp, ContextManager.addMessage, hm] at he
      rcases mem_mapSet _ _ _ he with h1 | h1
      · subst h1
        refine ⟨trimContext_length_le _, fun p => ?_⟩
        exact (hst _ (mapGet_mem _ _ _ hm)).2 p
      · exact hst e h1
  | addAI id p m =>
    cases hm : mapGet st id with
    | none => exact hst e (by simpa [applyOp, ContextManager.addAIMessage, hm] using he)
    | some conv =>
      simp [applyOp, ContextManager.addAIMessage, hm] at he
      rcases mem_mapSet _ _ _ he with h1 | h1
      · subst h1
        refine ⟨(hst _ (mapGet_mem _ _ _ hm)).1, fun q => ?_⟩
        by_cases hq : q = p
        · subst hq
          rw [AIContexts.get_set_self]
          exact trimAIContext_length_le _
        · rw [AIContexts.get_set_other _ _ _ _ hq]
          exact (hst _ (mapGet_mem _ _ _ hm)).2 q
      · exact hst e h1

theorem foldl_applyOp_sizeOK (ops : List CMOp) :
    ∀ st : CMState, (∀ e ∈ st, convSizeOK e.2) →
      ∀ e ∈ ops.foldl applyOp st, convSizeOK e.2 := by
  induction ops with
  | nil => intro st hst e he; exact hst e he
  | cons op t ih =>
    intro st hst e he
    exact ih (applyOp st op) (applyOp_sizeOK st hst op) e he

theorem fulfilledOf_rejectedOf_length (outcome : String → PromiseOutcome)
    (A : List (String × AIProvider)) :
    (fulfilledOf (settleAll outcome A)).length + (rejectedOf (settleAll outcome A)).length
      = A.length := by
  induction A with
  | nil => simp [settleAll, fulfilledOf, rejectedOf]
  | cons a t ih =>
    cases h : outcome a.1 <;>
      simp [settleAll, fulfilledOf, rejectedOf, h, List.filterMap_cons] at ih ⊢ <;>
      omega

theorem queryAll_names_perm (outcome : String → PromiseOutcome)
    (A : List (String × AIProvider))
    (hname : ∀ n r, outcome n = .fulfilled r → r.provider.name = n)
    (hA : ∀ x ∈ A, x.2.name = x.1) :
    List.Perm
      ((fulfilledOf (settleAll outcome A) ++ rejectedOf (settleAll outcome A)).map
        (fun r => r.provider.name))
      (A.map (fun p => p.1)) := by
  induction A with
  | nil => simp [settleAll, fulfilledOf, rejectedOf]
  | cons a t ih =>
    have hat : ∀ x ∈ t, x.2.name = x.1 := fun x hx => hA x (List.mem_cons_of_mem _ hx)
    cases h : outcome a.1 with
    | fulfilled v =>
      have hv : v.provider.name = a.1 := hname a.1 v h
      simp only [settleAll, List.map_cons, fulfilledOf, rejectedOf, List.filterMap_cons, h,
        List.cons_append, List.map_cons, List.map_append] at ih ⊢
      rw [hv]
      refine List.Perm.cons a.1 ?_
      exact ih hat
    | rejected r =>
      have ha : a.2.name = a.1 := hA a (List.mem_cons_self _ _)
      simp only [settleAll, List.map_cons, fulfilledOf, rejectedOf, List.filterMap_cons, h,
        List.map_append, List.map_cons] at ih ⊢
      refine List.Perm.trans List.perm_middle ?_
      rw [ha]
      refine List.Perm.cons a.1 ?_
      exact ih hat

theorem initializeProviders_names_tag (env : Env) :
    ∀ x ∈ initializeProviders env, x.2.name = x.1 := by
  rcases env with ⟨o, a, g, k⟩
  cases o <;> cases a <;> cases g <;> cases k <;> decide

theorem initializeProviders_names_nodup (env : Env) :
    ((initializeProviders env).map (fun p => p.1)).Nodup := by
  rcases env with ⟨o, a, g, k⟩
  cases o <;> cases a <;> cases g <;> cases k <;> decide

theorem appendMaster_preserves_aiContexts (state : CMState) (id : String) (m : Message)
    (cid : String) (conv : ConversationContext) (hcid : mapGet state cid = some conv) :
    ∃ conv2,
      mapGet (MeanGPTRouter.appendMaster (MeanGPTRouter.ensureConversation state id) id m)
        cid = some conv2 ∧ conv2.aiContexts = conv.aiContexts := by
  by_cases hc : cid = id
  · subst hc
    have hens : MeanGPTRouter.ensureConversation state cid = state := by
      simp [MeanGPTRouter.ensureConversation, ContextManager.getConversation, hcid]
    rw [hens]
    refine ⟨{ conv with
      messages := ContextManager.trimContextIfNeeded (conv.messages ++ [m]) }, ?_, rfl⟩
    simp [MeanGPTRouter.appendMaster, ContextManager.addMessage, hcid, mapGet_mapSet_self]
  · cases hg : mapGet state id with
    | some c0 =>
      have hens : MeanGPTRouter.ensureConversation state id = state := by
        simp [MeanGPTRouter.ensureConversation, ContextManager.getConversation, hg]
      rw [hens]
      refine ⟨conv, ?_, rfl⟩
      simp only [MeanGPTRouter.appendMaster, ContextManager.addMessage, hg, Option.getD_some]
      rw [mapGet_mapSet_ne _ _ _ _ hc]
      exact hcid
    | none =>
      refine ⟨conv, ?_, rfl⟩
      have hens : MeanGPTRouter.ensureConversation state id =
          mapSet state id { id := id, messages := [], aiContexts := emptyAIContexts } := by
        simp [MeanGPTRouter.ensureConversation, ContextManager.getConversation, hg,
          ContextManager.createConversation, jsOrDefault_empty_default]
      rw [hens]
      simp only [MeanGPTRouter.appendMaster, ContextManager.addMessage, mapGet_mapSet_self,
        Option.getD_some]
      rw [mapGet_mapSet_ne _ _ _ _ hc, mapGet_mapSet_ne _ _ _ _ hc]
      exact hcid

/-! ## Claim theorems -/

/-- Claim C2: for every provider implementation (OpenAI, Anthropic,
Gemini, Grok) and every input, `sendMessage` never throws to its
caller (each embedded `sendMessage` is total over every settled
transport outcome); whenever the underlying call fails, it resolves to
a response whose content is the empty string and whose error field is
populated. -/
theorem sendMessage_collapses_failures :
    (∀ model stream call e, call = Except.error e →
      (OpenAIProvider.sendMessage model stream call).content = "" ∧
      (OpenAIProvider.sendMessage model stream call).error.isSome = true) ∧
    (∀ model call e, call = Except.error e →
      (AnthropicProvider.sendMessage model call).content = "" ∧
      (AnthropicProvider.sendMessage model call).error.isSome = true) ∧
    (∀ model att1 att2 e, geminiRun att1 att2 = Except.error e →
      (GeminiProvider.sendMessage model att1 att2).content = "" ∧
      (GeminiProvider.sendMessage model att1 att2).error.isSome = true) ∧
    (∀ model call e, grokBody call = Except.error e →
      (GrokProvider.sendMessage model call).content = "" ∧
      (GrokProvider.sendMessage model call).error.isSome = true) := by
  refine ⟨?_, ?_, ?_, ?_⟩
  · intro model stream call e h
    subst h
    simp [OpenAIProvider.sendMessage, BaseAIProvider.handleError]
  · intro model call e h
    subst h
    simp [AnthropicProvider.sendMessage, BaseAIProvider.handleError]
  · intro model att1 att2 e h
    simp [GeminiProvider.sendMessage, h, BaseAIProvider.handleError]
  · intro model call e h
    simp [GrokProvider.sendMessage, h, BaseAIProvider.handleError]

/-- Witness for C2: each provider evaluated at a concrete failing
call. -/
theorem sendMessage_collapses_failures_witness :
    (OpenAIProvider.sendMessage "gpt-4o" false
      (Except.error { message := some "network down" })).content = "" ∧
    (OpenAIProvider.sendMessage "gpt-4o" false
      (Except.error { message := some "network down" })).error.isSome = true ∧
    (AnthropicProvider.sendMessage "claude"
      (Except.error { message := none })).content = "" ∧
    (AnthropicProvider.sendMessage "claude"
      (Except.error { message := none })).error.isSome = true ∧
    (GeminiProvider.sendMessage "gemini"
      (Except.error { message := some "503 overloaded" })
      (Except.error { message := some "timeout" })).content = "" ∧
    (GeminiProvider.sendMessage "gemini"
      (Except.error { message := some "503 overloaded" })
      (Except.error { message := some "timeout" })).error.isSome = true ∧
    (GrokProvider.sendMessage "grok-3"
      (Except.ok { ok := false, status := 429, statusText := "Too Many Requests"
                   firstContent := none, totalTokens := none })).content = "" ∧
    (GrokProvider.sendMessage "grok-3"
      (Except.ok { ok := false, status := 429, statusText := "Too Many Requests"
                   firstContent := none, totalTokens := none })).error.isSome = true := by
  refine ⟨(sendMessage_collapses_failures.1 "gpt-4o" false _ _ rfl).1,
    (sendMessage_collapses_failures.1 "gpt-4o" false _ _ rfl).2,
    (sendMessage_collapses_failures.2.1 "claude" _ _ rfl).1,
    (sendMessage_collapses_failures.2.1 "claude" _ _ rfl).2,
    (sendMessage_collapses_failures.2.2.1 "gemini" _ _ { message := some "timeout" } (by rfl)).1,
    (sendMessage_collapses_failures.2.2.1 "gemini" _ _ { message := some "timeout" } (by rfl)).2,
    (sendMessage_collapses_failures.2.2.2 "grok-3" _
      { message := some "Grok API error: 429 Too Many Requests" } (by rfl)).1,
    (sendMessage_collapses_failures.2.2.2 "grok-3" _
      { message := some "Grok API error: 429 Too Many Requests" } (by rfl)).2⟩

/-- Claim C4: when no response is valid (every response has empty
content or a truthy error), `analyzeResponses` sets the two fixed
failure strings and leaves every other field of the input unchanged. -/
theorem analyzeResponses_all_failed (synth : Option SynthCalls)
    (agg : AggregatedResponse) (q : String)
    (h : ∀ r ∈ agg.responses, r.content = "" ∨ jsTruthy r.error = true) :
    analyzeResponses synth agg q =
      { agg with
          meanAnswer := some "All AI providers failed to respond."
          bestAnswer := some "No responses available." } := by
  have hfilter : agg.responses.filter isValidResponse = [] := by
    rw [List.filter_eq_nil_iff]
    intro r hr
    rcases h r hr with hc | he
    · simp [isValidResponse, hc]
    · simp [isValidResponse, he]
  simp [analyzeResponses, hfilter]

/-- Witness for C4: a fan-out where the single response carries an
error yields exactly the two fixed strings. -/
theorem analyzeResponses_all_failed_witness :
    analyzeResponses none
      { responses := [{ provider := openaiDescriptor "gpt-4o-mini", content := ""
                        error := some "timeout" }]
        summary := [] } "q" =
      { responses := [{ provider := openaiDescriptor "gpt-4o-mini", content := ""
                        error := some "timeout" }]
        summary := []
        meanAnswer := some "All AI providers failed to respond."
        bestAnswer := some "No responses available." } :=
  analyzeResponses_all_failed none _ "q" (by decide)

/-- Claim C8: when exactly one response is valid, `analyzeResponses`
returns that content verbatim as `bestAnswer`, while `meanAnswer` is
still produced through the synthesis step
(`calculateMeanAnswer`). -/
theorem analyzeResponses_single_valid (synth : Option SynthCalls)
    (agg : AggregatedResponse) (q : String) (v : AIResponse)
    (h : agg.responses.filter isValidResponse = [v]) :
    analyzeResponses synth agg q =
      { agg with
          meanAnswer := some (calculateMeanAnswer synth [v] q agg.responses)
          bestAnswer := some v.content } := by
  simp [analyzeResponses, h, firstContent]

/-- Witness for C8: one failing sibling plus one valid response with
content Paris yields `bestAnswer` Paris verbatim. -/
theorem analyzeResponses_single_valid_witness :
    (analyzeResponses none
      { responses :=
          [{ provider := anthropicDescriptor "c", content := "", error := some "boom" },
           { provider := openaiDescriptor "m", content := "Paris" }]
        summary := [] } "capital").bestAnswer = some "Paris" := by
  rw [analyzeResponses_single_valid none _ _
    { provider := openaiDescriptor "m", content := "Paris" } (by decide)]

/-- Claim C7: with at least one prior message, a failed or unparseable
classification is not propagated; the decision comes from the static
fallback and is `shouldForward = false` exactly when the lowercased
message contains a self-reference keyword, with no further retry. -/
theorem shouldForwardToAIs_static_fallback (state : CMState)
    (conversationId userMessage : String) (conv : ConversationContext)
    (hc : mapGet state conversationId = some conv)
    (hne : conv.messages ≠ []) :
    ContextManager.shouldForwardToAIs state conversationId userMessage (Except.error ()) =
      (if mentionsSelfReference userMessage then
        { shouldForward := false, providers := none
          reason := "Fallback: Direct MeanGPT interaction detected" }
      else
        { shouldForward := true, providers := none
          reason := "Fallback: General question routing" }) ∧
    ((ContextManager.shouldForwardToAIs state conversationId userMessage
        (Except.error ())).shouldForward = false ↔
      mentionsSelfReference userMessage = true) := by
  have hlen : ¬conv.messages.length = 0 := by
    simpa [List.length_eq_zero] using hne
  have h1 : ContextManager.shouldForwardToAIs state conversationId userMessage
      (Except.error ()) = fallbackRouting userMessage := by
    simp [ContextManager.shouldForwardToAIs, hc, hlen]
  have h2 : fallbackRouting userMessage =
      if mentionsSelfReference userMessage then
        ({ shouldForward := false, providers := none
           reason := "Fallback: Direct MeanGPT interaction detected" } : RoutingResult)
      else
        { shouldForward := true, providers := none
          reason := "Fallback: General question routing" } := rfl
  refine ⟨h1.trans h2, ?_⟩
  rw [h1, h2]
  by_cases hm : mentionsSelfReference userMessage <;> simp [hm]

/-- Witness for C7: an identity question with a failing classifier is
not forwarded. -/
theorem shouldForwardToAIs_static_fallback_witness :
    (ContextManager.shouldForwardToAIs
      [("c", { id := "c", messages := [{ role := Role.user, content := "hi" }]
               aiContexts := emptyAIContexts })]
      "c" "who are you" (Except.error ())).shouldForward = false := by
  exact (shouldForwardToAIs_static_fallback _ "c" "who are you"
    { id := "c", messages := [{ role := Role.user, content := "hi" }]
      aiContexts := emptyAIContexts }
    (by decide) (by decide)).2.mpr (by decide)

/-- Counterexample for C10 as stated: an empty-string id is falsy, so
`id \x7c\x7c this.generateId()` swaps it for the generated id — the
fresh conversation is stored under the generated id, and an existing
empty-string binding survives with its history intact. -/
theorem createConversation_empty_id_counterexample :
    mapGet (ContextManager.createConversation
        [("", { id := "", messages := [{ role := Role.user, content := "old history" }]
                aiContexts := emptyAIContexts })] (some "") "conv_gen").2 "" =
      some { id := "", messages := [{ role := Role.user, content := "old history" }]
             aiContexts := emptyAIContexts } ∧
    mapGet (ContextManager.createConversation
        [("", { id := "", messages := [{ role := Role.user, content := "old history" }]
                aiContexts := emptyAIContexts })] (some "") "conv_gen").2 "conv_gen" =
      some { id := "conv_gen", messages := [], aiContexts := emptyAIContexts } := by
  refine ⟨by decide, by decide⟩

/-- Claim C10 (corrected): for every truthy (non-empty) id,
`createConversation(id)` unconditionally stores a fresh conversation
with empty master transcript and empty per-provider contexts under
that id, silently replacing any existing binding and leaving every
other id untouched; an empty-string id is falsy and is swapped for the
generated id, which then receives the fresh conversation. -/
theorem createConversation_overwrites (state : CMState) (id genId : String)
    (hid : id ≠ "") :
    (ContextManager.createConversation state (some id) genId).1.id = id ∧
    (ContextManager.createConversation state (some id) genId).1.messages = [] ∧
    (∀ p : Prov,
      (ContextManager.createConversation state (some id) genId).1.aiContexts.get p = []) ∧
    mapGet (ContextManager.createConversation state (some id) genId).2 id =
      some (ContextManager.createConversation state (some id) genId).1 ∧
    (∀ j, j ≠ id →
      mapGet (ContextManager.createConversation state (some id) genId).2 j = mapGet state j) ∧
    (ContextManager.createConversation state (some "") genId).1.id = genId := by
  have hkey : jsOrDefault (some id) genId = id := by
    simp [jsOrDefault, hid]
  have h2 : (ContextManager.createConversation state (some id) genId).2 =
      mapSet state id (ContextManager.createConversation state (some id) genId).1 := by
    simp [ContextManager.createConversation, hkey]
  refine ⟨?_, rfl, ?_, ?_, ?_, ?_⟩
  · simp [ContextManager.createConversation, hkey]
  · intro p
    cases p <;> rfl
  · rw [h2]
    exact mapGet_mapSet_self state id _
  · intro j hj
    rw [h2]
    exact mapGet_mapSet_ne state id j _ hj
  · simp [ContextManager.createConversation, jsOrDefault]

/-- Witness for C10: recreating a truthy id that already holds history
replaces it with the fresh empty conversation and leaves other ids
alone. -/
theorem createConversation_overwrites_witness :
    mapGet (ContextManager.createConversation
        [("a", { id := "a", messages := [{ role := Role.user, content := "old history" }]
                 aiContexts := emptyAIContexts })] (some "a") "gen").2 "a" =
      some { id := "a", messages := [], aiContexts := emptyAIContexts } ∧
    mapGet (ContextManager.createConversation
        [("a", { id := "a", messages := [{ role := Role.user, content := "old history" }]
                 aiContexts := emptyAIContexts })] (some "a") "gen").2 "b" = none := by
  have H := createConversation_overwrites
    [("a", { id := "a", messages := [{ role := Role.user, content := "old history" }]
             aiContexts := emptyAIContexts })] "a" "gen" (by decide)
  exact ⟨H.2.2.2.1.trans (by decide), (H.2.2.2.2.1 "b" (by decide)).trans (by decide)⟩

/-- Counterexample for C1 as stated: a requested provider that is not
configured contributes no response entry at all (one requested
provider, zero entries), and with all four configured the entries
follow the configured-map order, not the order of the requested
subset. -/
theorem queryAllProviders_drops_unconfigured :
    (queryAllProviders ⟨true, false, false, false⟩ (fun x => PromiseOutcome.rejected none)
      (some ["anthropic"])).responses.length = 0 ∧
    (["anthropic"] : List String).length = 1 ∧
    ((queryAllProviders ⟨true, true, true, true⟩
        (fun n => PromiseOutcome.fulfilled
          { provider := { name := n, displayName := n, model := n }, content := "x" })
        (some ["grok", "openai"])).responses.map (fun r => r.provider.name)) =
      ["openai", "grok"] := by
  refine ⟨by decide, by decide, by decide⟩

/-- Claim C1 (corrected): `queryAllProviders` returns exactly one entry
per configured provider contained in the requested subset, tagged to
that provider (failed calls included as error entries, unconfigured
requested providers silently omitted), ordered by the configured map
with fulfilled results before rejected ones rather than by the
requested order. -/
theorem queryAllProviders_one_entry_per_configured (env : Env)
    (outcome : String → PromiseOutcome) (P : List String)
    (hname : ∀ n r, outcome n = PromiseOutcome.fulfilled r → r.provider.name = n) :
    List.Perm
      ((queryAllProviders env outcome (some P)).responses.map (fun r => r.provider.name))
      (((initializeProviders env).filter (fun p => P.contains p.1)).map (fun p => p.1)) ∧
    (queryAllProviders env outcome (some P)).responses.length =
      ((initializeProviders env).filter (fun p => P.contains p.1)).length ∧
    ((queryAllProviders env outcome (some P)).responses.map (fun r => r.provider.name)).Nodup ∧
    (queryAllProviders env outcome (some P)).responses =
      fulfilledOf (settleAll outcome ((initializeProviders env).filter (fun p => P.contains p.1)))
        ++ rejectedOf
          (settleAll outcome ((initializeProviders env).filter (fun p => P.contains p.1))) := by
  have hA : ∀ x ∈ (initializeProviders env).filter (fun p => P.contains p.1),
      x.2.name = x.1 :=
    fun x hx => initializeProviders_names_tag env x (List.mem_of_mem_filter hx)
  have hperm := queryAll_names_perm outcome
    ((initializeProviders env).filter (fun p => P.contains p.1)) hname hA
  have hsub : ((((initializeProviders env).filter (fun p => P.contains p.1)).map
      (fun p => p.1)).Sublist ((initializeProviders env).map (fun p => p.1))) :=
    (List.filter_sublist _).map _
  refine ⟨hperm, ?_, ?_, rfl⟩
  · rw [show (queryAllProviders env outcome (some P)).responses =
      fulfilledOf (settleAll outcome ((initializeProviders env).filter (fun p => P.contains p.1)))
        ++ rejectedOf (settleAll outcome
          ((initializeProviders env).filter (fun p => P.contains p.1))) from rfl]
    rw [List.length_append, fulfilledOf_rejectedOf_length]
  · refine hperm.nodup_iff.mpr ?_
    exact (initializeProviders_names_nodup env).sublist hsub

/-- Witness for C1: with all four providers configured and the subset
requested as grok then openai, exactly two entries come back. -/
theorem queryAllProviders_one_entry_per_configured_witness :
    (queryAllProviders ⟨true, true, true, true⟩
      (fun n => PromiseOutcome.fulfilled
        { provider := { name := n, displayName := n, model := n }, content := "x" })
      (some ["grok", "openai"])).responses.length = 2 := by
  have h := queryAllProviders_one_entry_per_configured ⟨true, true, true, true⟩
    (fun n => PromiseOutcome.fulfilled
      { provider := { name := n, displayName := n, model := n }, content := "x" })
    ["grok", "openai"]
    (fun n r hr => by injection hr with h2; rw [← h2])
  exact h.2.1.trans (by decide)

/-- Counterexample for C5 as stated: a valid numeric response whose
first token parses to zero is excluded from the code mean, while the
claimed mean over every first token would average it in. -/
theorem simpleAverage_zero_token_counterexample :
    simpleAverage
      [{ provider := openaiDescriptor "m", content := "$0" },
       { provider := anthropicDescriptor "m", content := "$10" }] = "Mean value: $10.00" ∧
    claimNumericMean ["$0", "$10"] = "Mean value: $5.00" ∧
    ("Mean value: $10.00" : String) ≠ "Mean value: $5.00" := by
  refine ⟨by decide, by decide, by decide⟩

/-- Claim C5 (corrected): with the synthesis provider unavailable and
every valid response numeric, the fallback is the mean of the positive
first numeric tokens (tokens parsing to zero or not parsing are
excluded; if none remain, the fixed inability string), rendered as a
2-decimal currency string, with responses 10 and 20 dollars giving
`Mean value: $15.00`; otherwise the fallback is the responses labeled
by display name under a count header. -/
theorem simpleAverage_fallback (responses : List AIResponse) :
    (areNumericResponses (validContents responses) = true →
      positiveNumbers (validContents responses) ≠ [] →
      simpleAverage responses =
        "Mean value: $" ++ toFixed2 (Frac.divNat
          (Frac.sum (positiveNumbers (validContents responses)))
          (positiveNumbers (validContents responses)).length)) ∧
    (areNumericResponses (validContents responses) = true →
      positiveNumbers (validContents responses) = [] →
      simpleAverage responses = "Unable to calculate mean") ∧
    (areNumericResponses (validContents responses) = false →
      simpleAverage responses =
        "Combined response from " ++ toString responses.length ++ " AIs:\n\n" ++
          joinSep "\n\n" (responses.map (fun r => r.provider.displayName ++ ": " ++ r.content))) ∧
    simpleAverage [{ provider := openaiDescriptor "m", content := "$10" },
        { provider := anthropicDescriptor "m", content := "$20" }] = "Mean value: $15.00" := by
  refine ⟨?_, ?_, ?_, by decide⟩
  · intro h1 h2
    have hlen : ¬(positiveNumbers (validContents responses)).length = 0 := by
      simpa [List.length_eq_zero] using h2
    simp [simpleAverage, calculateNumericMean, h1, hlen]
  · intro h1 h2
    simp [simpleAverage, calculateNumericMean, h1, h2]
  · intro h1
    simp [simpleAverage, h1]

/-- Witness for C5: two numeric responses of 100 and 200 dollars with
no synthesis provider average to 150 dollars. -/
theorem simpleAverage_fallback_witness :
    simpleAverage [{ provider := openaiDescriptor "m", content := "$100" },
        { provider := anthropicDescriptor "m", content := "$200" }] = "Mean value: $150.00" := by
  exact ((simpleAverage_fallback _).1 (by decide) (by decide)).trans (by decide)

/-- Claim C6: after any sequence of create, addMessage and addAIMessage
operations, every master transcript and every per-provider context
holds at most 21 entries (the 20-message cap plus one synthetic
summary); and any append run that exceeds the cap removes the oldest
excess messages and prepends a single synthetic system summary whose
topics are exactly the first 50 characters of each removed user-role
message, comma-joined. -/
theorem context_trim_bound :
    (∀ ops : List CMOp, ∀ e ∈ applyOps ops, convSizeOK e.2) ∧
    (∀ msgs : List Message, maxMessagesPerContext < msgs.length →
      ContextManager.trimAIContextIfNeeded msgs =
        { role := Role.system
          content := "Previous context summary: " ++ ("Topics discussed: " ++
            joinSep ", " (((msgs.take (msgs.length - maxMessagesPerContext)).filter
              (fun m => m.role == Role.user)).map (fun m => jsSubstring0 m.content 50))) } ::
          msgs.drop (msgs.length - maxMessagesPerContext)) ∧
    (∀ msgs : List Message, maxMessagesPerContext < msgs.length →
      ContextManager.trimContextIfNeeded msgs =
        { role := Role.system
          content := "Previous conversation summary: " ++ ("Topics discussed: " ++
            joinSep ", " (((msgs.take (msgs.length - maxMessagesPerContext)).filter
              (fun m => m.role == Role.user)).map (fun m => jsSubstring0 m.content 50))) } ::
          msgs.drop (msgs.length - maxMessagesPerContext)) := by
  refine ⟨?_, ?_, ?_⟩
  · intro ops e he
    exact foldl_applyOp_sizeOK ops [] (by simp) e he
  · intro msgs h
    simp [ContextManager.trimAIContextIfNeeded, h, ContextManager.createSummary]
  · intro msgs h
    simp [ContextManager.trimContextIfNeeded, h, ContextManager.createSummary]

/-- Witness for C6: a context of 21 messages plus one more is trimmed
to the summary plus the newest 20, and a short operation run keeps the
bound. -/
theorem context_trim_bound_witness :
    convSizeOK { id := "c", messages := [{ role := Role.user, content := "hi" }]
                 aiContexts := emptyAIContexts } ∧
    ContextManager.trimAIContextIfNeeded
      (List.replicate 21 { role := Role.user, content := "x" }) =
      { role := Role.system, content := "Previous context summary: Topics discussed: x" } ::
        List.replicate 20 { role := Role.user, content := "x" } := by
  constructor
  · exact context_trim_bound.1 [CMOp.create "c",
      CMOp.addMsg "c" { role := Role.user, content := "hi" }]
      ("c", { id := "c", messages := [{ role := Role.user, content := "hi" }]
              aiContexts := emptyAIContexts }) (by decide)
  · exact (context_trim_bound.2.1 _ (by decide)).trans (by decide)

/-- Claim C3 (code bug): `processMessage` appends the user message to
the master transcript before calling `shouldForwardToAIs`, so for a
brand-new conversation the transcript is already nonempty and the
first-message shortcut is unreachable; the classifier is consulted and
its DIRECT_REPLY verdict yields `shouldForward = false`, while a
failing classifier yields the generic fallback reason rather than a
first-message reason. -/
theorem processMessage_new_conversation_consults_classifier :
    (MeanGPTRouter.processMessage ⟨false, false, false, false⟩
        (fun n => { provider := openaiDescriptor "gpt-4o-mini", content := "c" })
        (Except.ok { decision := "DIRECT_REPLY", providers := none
                     reason := "user addressed MeanGPT" })
        none [] "conv1" "hello").1.routing =
      { shouldForward := false, providers := none, reason := "user addressed MeanGPT" } ∧
    (MeanGPTRouter.processMessage ⟨false, false, false, false⟩
        (fun n => { provider := openaiDescriptor "gpt-4o-mini", content := "c" })
        (Except.error ()) none [] "conv1" "hello").1.routing =
      { shouldForward := true, providers := none
        reason := "Fallback: General question routing" } := by
  exact ⟨by decide, by decide⟩

/-- Claim C9: whenever the routing decision is not to forward,
`processMessage` ends in exactly the state produced by ensuring the
conversation and appending the user turn to the master transcript (so
every per-provider context is untouched), returns no aggregated data,
never consults the synthesis aggregator, and renders a designated
provider error as the identity-prefixed notice. -/
theorem processMessage_direct_branch (env : Env) (send : String → AIResponse)
    (classify : Except Unit ParsedRouting) (synth synth2 : Option SynthCalls)
    (state : CMState) (conversationId userMessage : String)
    (h : (MeanGPTRouter.processMessage env send classify synth state conversationId
        userMessage).1.routing.shouldForward = false) :
    (MeanGPTRouter.processMessage env send classify synth state conversationId userMessage).2 =
      MeanGPTRouter.appendMaster (MeanGPTRouter.ensureConversation state conversationId)
        conversationId { role := Role.user, content := userMessage } ∧
    (MeanGPTRouter.processMessage env send classify synth state conversationId
      userMessage).1.aggregatedData = none ∧
    MeanGPTRouter.processMessage env send classify synth2 state conversationId userMessage =
      MeanGPTRouter.processMessage env send classify synth state conversationId userMessage ∧
    (jsTruthy (querySingleProvider env send "openai").error = true →
      (MeanGPTRouter.processMessage env send classify synth state conversationId
        userMessage).1.response =
        "MeanGPT: I encountered an error processing your request: " ++
          (querySingleProvider env send "openai").error.getD "") ∧
    (∀ cid conv, mapGet state cid = some conv →
      ∃ conv2,
        mapGet (MeanGPTRouter.processMessage env send classify synth state conversationId
          userMessage).2 cid = some conv2 ∧ conv2.aiContexts = conv.aiContexts) := by
  have hb : (ContextManager.shouldForwardToAIs
      (MeanGPTRouter.appendMaster (MeanGPTRouter.ensureConversation state conversationId)
        conversationId { role := Role.user, content := userMessage })
      conversationId userMessage classify).shouldForward = false := by
    by_cases hb2 : (ContextManager.shouldForwardToAIs
        (MeanGPTRouter.appendMaster (MeanGPTRouter.ensureConversation state conversationId)
          conversationId { role := Role.user, content := userMessage })
        conversationId userMessage classify).shouldForward
    · exfalso
      rw [MeanGPTRouter.processMessage] at h
      simp only [hb2, Bool.not_true, if_false, ite_false] at h
      exact absurd (hb2.symm.trans h) (by simp)
    · simpa using hb2
  refine ⟨?_, ?_, ?_, ?_, ?_⟩
  · simp [MeanGPTRouter.processMessage, hb]
  · simp [MeanGPTRouter.processMessage, hb]
  · simp [MeanGPTRouter.processMessage, hb]
  · intro he
    simp [MeanGPTRouter.processMessage, hb, MeanGPTRouter.handleDirectResponse, he]
  · intro cid conv hcid
    have h2 : (MeanGPTRouter.processMessage env send classify synth state conversationId
        userMessage).2 =
        MeanGPTRouter.appendMaster (MeanGPTRouter.ensureConversation state conversationId)
          conversationId { role := Role.user, content := userMessage } := by
      simp [MeanGPTRouter.processMessage, hb]
    rw [h2]
    exact appendMaster_preserves_aiContexts state conversationId _ cid conv hcid

/-- Witness for C9: an existing sibling conversation keeps its provider
contexts, no aggregated data is returned, and the unconfigured
designated provider produces the identity-prefixed notice. -/
theorem processMessage_direct_branch_witness :
    (MeanGPTRouter.processMessage ⟨false, false, false, false⟩
        (fun n => { provider := openaiDescriptor "m", content := "c" })
        (Except.ok { decision := "DIRECT_REPLY", providers := none, reason := "r" })
        none [("other", { id := "other"
                          messages := [{ role := Role.assistant, content := "prior" }]
                          aiContexts := emptyAIContexts })]
        "c" "hi").1.response =
      "MeanGPT: I encountered an error processing your request: Provider openai not configured" ∧
    (MeanGPTRouter.processMessage ⟨false, false, false, false⟩
        (fun n => { provider := openaiDescriptor "m", content := "c" })
        (Except.ok { decision := "DIRECT_REPLY", providers := none, reason := "r" })
        none [("other", { id := "other"
                          messages := [{ role := Role.assistant, content := "prior" }]
                          aiContexts := emptyAIContexts })]
        "c" "hi").1.aggregatedData = none := by
  have H := processMessage_direct_branch ⟨false, false, false, false⟩
    (fun n => { provider := openaiDescriptor "m", content := "c" })
    (Except.ok { decision := "DIRECT_REPLY", providers := none, reason := "r" })
    none none
    [("other", { id := "other"
                 messages := [{ role := Role.assistant, content := "prior" }]
                 aiContexts := emptyAIContexts })]
    "c" "hi" (by decide)
  exact ⟨(H.2.2.2.1 (by decide)).trans (by decide), H.2.1⟩
